import Mathlib

/-!
Verification of the `vsphere_folder` Terraform resource
(`src/vsphere/resource_vsphere_folder.go`).

Modelling conventions (shallow embedding):

* Slash-delimited inventory paths are modelled as `List String` of their
  segments; the empty string path "" is `[]`.  `filepath.Join`, the chop
  `path[:strings.LastIndex(path, "/")]` and `path.Dir` become `++` and
  `List.dropLast` (for a nonempty relative path `path.Dir` drops the last
  segment; `path.Dir` of a single segment is `"."`, which the Go code at once
  rewrites to `""`, i.e. `[]`; `path.Dir ""` is again `"."` hence `""`).
* The external govmomi inventory service is modelled by `Inv`, the list of
  inventory paths of the currently existing nodes.  A reference returned by
  `FindByInventoryPath` is modelled as the node's inventory path itself
  (the spec's §3 identifies an `InventoryFolder` by its full slash-delimited
  inventory path, and §6 exposes `.inventoryPath` on references).
* Fallible remote calls carry injectable faults through `Client`
  (`lookupErr`, `createErr`, `childrenErr`, `destroyErr`); `none` means the
  call succeeds.  `folder.Destroy` + `task.Wait` are collapsed into one
  fallible destroy step.
* Every remote call is recorded in a trace of `Event`s so that claims about
  which calls are issued, and in which order, are statements about the
  trace.
* A Go run either returns a value, returns an `error` (`Outcome.err`, the
  message string built exactly as the `fmt.Errorf` calls build it), crashes
  with a runtime panic (`Outcome.crash`, used for the nil-interface type
  assertion `folderRef.(*object.Folder)`, for the out-of-range string slice
  when a path without a slash is chopped, and for the nil-pointer
  dereference `root.InventoryPath` after a failed `CreateFolder`
  reassigned `root` to its nil return), or exhausts the fuel of a loop
  (`Outcome.fuelOut`, the model's image of a diverging Go loop; the fuel
  supplied at each call site strictly exceeds the loop's iteration bound in
  every terminating run).
-/

namespace VsphereFolder

/-- An inventory path, as the list of its slash-separated segments. -/
abbrev Path := List String

def slash : String := "/"

/-- Render a path back to its slash-delimited string form. -/
def joinPath (p : Path) : String := String.intercalate slash p

/-- One remote call against the inventory service, as recorded in a trace. -/
inductive Event where
  | lookup (p : Path)
  | createF (parent : Path) (name : String)
  | childrenQ (p : Path)
  | destroy (p : Path)
deriving DecidableEq, Repr

def Event.isCreate : Event → Bool
  | .createF _ _ => true
  | _ => false

def Event.isDestroy : Event → Bool
  | .destroy _ => true
  | _ => false

def Event.isMutation : Event → Bool
  | .createF _ _ => true
  | .destroy _ => true
  | _ => false

/-- The live inventory: the inventory paths of all existing nodes. -/
structure Inv where
  nodes : List Path
deriving DecidableEq, Repr

/-- Existence lookup: does a node with this exact inventory path exist? -/
def Inv.found (inv : Inv) (p : Path) : Bool := decide (p ∈ inv.nodes)

/-- The children of the node at `p`: the nodes whose path extends `p` by
exactly one segment (`object.Folder.Children`). -/
def Inv.childrenOf (inv : Inv) (p : Path) : List Path :=
  inv.nodes.filter (fun q => decide (q.dropLast = p ∧ q ≠ p))

/-- Creating a child folder `name` under the node at `parent`. -/
def Inv.createNode (inv : Inv) (parent : Path) (name : String) : Inv :=
  ⟨inv.nodes ++ [parent ++ [name]]⟩

/-- Destroying the node at `p` removes it together with its subtree. -/
def Inv.destroyNode (inv : Inv) (p : Path) : Inv :=
  ⟨inv.nodes.filter (fun q => !(List.isPrefixOf p q))⟩

/-- A datacenter reference (`object.Datacenter`): its name and its
inventory path. -/
structure DC where
  name : String
  inventoryPath : Path
deriving DecidableEq, Repr

/-- The govmomi client, as the core uses it: datacenter resolution plus
fault injection for each kind of remote call (`none` = the call succeeds;
`some e` = the call fails with underlying error text `e`). -/
structure Client where
  namedDC : String → Option DC
  defaultDC : Option DC
  lookupErr : Path → Option String
  createErr : Path → String → Option String
  childrenErr : Path → Option String
  destroyErr : Path → Option String

/-- Outcome of a Go call: normal value, returned `error`, runtime panic,
or (model artifact) loop fuel exhausted. -/
inductive Outcome (α : Type) where
  | ok (a : α)
  | err (e : String)
  | crash
  | fuelOut
deriving DecidableEq, Repr

/-- The `folder` struct of the source (all three fields are strings there;
the two path-valued ones are segment lists here). -/
structure FolderRec where
  datacenter : String
  existingPath : Path
  path : Path
deriving DecidableEq, Repr

/-- The Terraform `ResourceData` fields this resource touches.  `pathField`
is the configured `path` attribute after `strings.TrimRight(_, "/")`;
`rid` is the resource identity string, `""` when unset/cleared. -/
structure RData where
  datacenter : String
  pathField : Path
  existing_path : Path
  rid : String
deriving DecidableEq, Repr

/-- `getDatacenter` (source lines 232–241): a named datacenter is looked
up by name, the empty name resolves the default datacenter.  The finder
call in `createFolder` (`finder.DatacenterOrDefault`, line 78) has the
same name-or-default semantics and is embedded by this same function. -/
def getDatacenter (c : Client) (dc : String) : Except String DC :=
  if dc ≠ "" then
    match c.namedDC dc with
    | some d => Except.ok d
    | none => Except.error ("datacenter " ++ dc ++ " not found")
  else
    match c.defaultDC with
    | some d => Except.ok d
    | none => Except.error ("no default datacenter")

/-- The upward resolution loop of `createFolder` (source lines 93–109).
Starting from the full joined path it looks the path up; when absent it
pushes the final segment onto `folders` (leaf first) and chops the path at
its last slash, failing once the chopped path equals the datacenter's
inventory path.  Chopping a string without a slash (at most one segment)
is the Go slice-bound panic `path[:-1]`.  On success it returns the found
ancestor together with the missing segments in discovery (leaf-first)
order. -/
def findLoop (c : Client) (inv : Inv) (dcPath : Path) :
    Nat → Path → List String → List Event → List Event × Outcome (Path × List String)
  | 0, _, _, tr => (tr, Outcome.fuelOut)
  | fuel + 1, p, folders, tr =>
    let tr2 := tr ++ [Event.lookup p]
    match c.lookupErr p with
    | some e => (tr2, Outcome.err ("error " ++ e))
    | none =>
      if inv.found p then (tr2, Outcome.ok (p, folders))
      else if p.length ≤ 1 then (tr2, Outcome.crash)
      else
        let folders2 := folders ++ [p.getLastD ""]
        let p2 := p.dropLast
        if p2 = dcPath then
          (tr2, Outcome.err ("vSphere base path " ++ joinPath (dcPath ++ ["vm"]) ++ " not found"))
        else findLoop c inv dcPath fuel p2 folders2 tr2

/-- The creation loop of `createFolder` (source lines 111–118): the missing
segments are consumed here in reverse discovery order (the Go loop runs
`i` from `len(folders)-1` down to `0`), each `CreateFolder` call issued
against the folder produced by the previous one.  On the first failure the
multi-assignment `root, err = root.CreateFolder(...)` (line 114) has
already replaced `root` with the failed call's return, which is nil, so
formatting `root.InventoryPath` for the `Failed to create folder at ...`
error (line 116) dereferences a nil pointer: the run crashes with a
runtime panic instead of returning that error; no rollback either way. -/
def createLoop (c : Client) :
    Path → List String → List Event → Inv → Inv × List Event × Outcome Path
  | root, [], tr, inv => (inv, tr, Outcome.ok root)
  | root, name :: rest, tr, inv =>
    let tr2 := tr ++ [Event.createF root name]
    match c.createErr root name with
    | some _ => (inv, tr2, Outcome.crash)
    | none => createLoop c (root ++ [name]) rest tr2 (inv.createNode root name)

/-- `createFolder` (source lines 74–120): resolve the datacenter, join
`dc.InventoryPath/vm/<path>`, walk upward to the deepest existing ancestor
(`findLoop`), then create the missing segments root-to-leaf
(`createLoop`).  The `folder` record is returned unchanged on success:
the source never assigns `f.existingPath`. -/
def createFolder (c : Client) (inv : Inv) (f : FolderRec) :
    Inv × List Event × Outcome FolderRec :=
  match getDatacenter c f.datacenter with
  | Except.error e => (inv, [], Outcome.err ("error " ++ e))
  | Except.ok dc =>
    let base := dc.inventoryPath ++ ["vm"]
    let start := base ++ f.path
    match findLoop c inv dc.inventoryPath (start.length + 1) start [] [] with
    | (tr, Outcome.ok (root, folders)) =>
      match createLoop c root folders.reverse tr inv with
      | (inv2, tr2, Outcome.ok _) => (inv2, tr2, Outcome.ok f)
      | (inv2, tr2, Outcome.err e) => (inv2, tr2, Outcome.err e)
      | (inv2, tr2, Outcome.crash) => (inv2, tr2, Outcome.crash)
      | (inv2, tr2, Outcome.fuelOut) => (inv2, tr2, Outcome.fuelOut)
    | (tr, Outcome.err e) => (inv, tr, Outcome.err e)
    | (tr, Outcome.crash) => (inv, tr, Outcome.crash)
    | (tr, Outcome.fuelOut) => (inv, tr, Outcome.fuelOut)

/-- `resourceVSphereFolderCreate` (source lines 50–69): build the working
record (`existingPath` starts as the zero value `""`), run `createFolder`,
then persist `existing_path` from the record and set the identity to
`fmt.Sprintf("%v/%v", f.datacenter, f.path)` — the raw configured
datacenter string, empty when the default datacenter is used.  The final
delegation to Read (source line 71) does not touch `existing_path` and is
not chained here. -/
def resourceVSphereFolderCreate (c : Client) (inv : Inv) (d : RData) :
    Inv × List Event × Outcome RData :=
  let f : FolderRec := { datacenter := d.datacenter, existingPath := [], path := d.pathField }
  match createFolder c inv f with
  | (inv2, tr, Outcome.ok f2) =>
    (inv2, tr, Outcome.ok { d with existing_path := f2.existingPath,
                                   rid := f2.datacenter ++ slash ++ joinPath f2.path })
  | (inv2, tr, Outcome.err e) => (inv2, tr, Outcome.err e)
  | (inv2, tr, Outcome.crash) => (inv2, tr, Outcome.crash)
  | (inv2, tr, Outcome.fuelOut) => (inv2, tr, Outcome.fuelOut)

/-- The lookup key `fmt.Sprintf("%v/vm/%v", datacenter, p)` used by the
delete path (source lines 185 and 219): the raw datacenter name, then
`vm`, then the relative path. -/
def deleteKey (dcName : String) (p : Path) : Path := dcName :: "vm" :: p

/-- The pruning loop of `deleteFolder` (source lines 194–227).  While the
current path differs from `f.existingPath`: query the held folder's
children; fail with the `non-empty` error if any exist; otherwise step the
current path to its parent (`path.Dir`, with `"."` rewritten to `""` —
`List.dropLast`), destroy the held folder and wait, then re-look up the
folder at the new current path, keeping the stale reference when the
lookup returns nil.  `path.Dir` keeps `""` at `""`, so a boundary that is
never reached loops forever: fuel exhaustion models that divergence. -/
def deleteLoop (c : Client) (f : FolderRec) :
    Nat → Inv → Path → Path → List Event → Inv × List Event × Outcome Unit
  | 0, inv, _, _, tr => (inv, tr, Outcome.fuelOut)
  | fuel + 1, inv, cur, fld, tr =>
    if cur = f.existingPath then (inv, tr, Outcome.ok ())
    else
      let tr2 := tr ++ [Event.childrenQ fld]
      match c.childrenErr fld with
      | some e => (inv, tr2, Outcome.err e)
      | none =>
        if 0 < (inv.childrenOf fld).length then
          (inv, tr2, Outcome.err ("Folder " ++ joinPath cur ++ " is non-empty and will not be deleted"))
        else
          let cur2 := cur.dropLast
          let tr3 := tr2 ++ [Event.destroy fld]
          match c.destroyErr fld with
          | some e => (inv, tr3, Outcome.err e)
          | none =>
            let inv2 := inv.destroyNode fld
            let key := deleteKey f.datacenter cur2
            let tr4 := tr3 ++ [Event.lookup key]
            match c.lookupErr key with
            | some e => (inv2, tr4, Outcome.err e)
            | none =>
              let fld2 := if inv2.found key then key else fld
              deleteLoop c f fuel inv2 cur2 fld2 tr4

/-- `deleteFolder` (source lines 172–229): resolve the datacenter, look up
the leaf folder at `<datacenter>/vm/<path>`; a lookup error is wrapped as
`Could not locate folder`, while a nil result without error flows into the
type assertion `folderRef.(*object.Folder)` and panics; otherwise run the
pruning loop from the leaf path down to `f.existingPath`. -/
def deleteFolder (c : Client) (inv : Inv) (f : FolderRec) :
    Inv × List Event × Outcome Unit :=
  match getDatacenter c f.datacenter with
  | Except.error e => (inv, [], Outcome.err e)
  | Except.ok _ =>
    let key := deleteKey f.datacenter f.path
    match c.lookupErr key with
    | some e =>
      (inv, [Event.lookup key], Outcome.err ("[ERROR] Could not locate folder " ++ joinPath f.path ++ ": " ++ e))
    | none =>
      if inv.found key then
        deleteLoop c f (f.path.length + 1) inv f.path key [Event.lookup key]
      else
        (inv, [Event.lookup key], Outcome.crash)

/-- `resourceVSphereFolderDelete` (source lines 150–170): build the record
from the persisted `path`, `existing_path` and `datacenter` fields, run
`deleteFolder`, and clear the identity (`d.SetId("")`) on success. -/
def resourceVSphereFolderDelete (c : Client) (inv : Inv) (d : RData) :
    Inv × List Event × Outcome RData :=
  let f : FolderRec := { datacenter := d.datacenter, existingPath := d.existing_path,
                         path := d.pathField }
  match deleteFolder c inv f with
  | (inv2, tr, Outcome.ok _) => (inv2, tr, Outcome.ok { d with rid := "" })
  | (inv2, tr, Outcome.err e) => (inv2, tr, Outcome.err e)
  | (inv2, tr, Outcome.crash) => (inv2, tr, Outcome.crash)
  | (inv2, tr, Outcome.fuelOut) => (inv2, tr, Outcome.fuelOut)

/-- A client whose remote calls all succeed. -/
def quietClient (dcs : String → Option DC) (dd : Option DC) : Client :=
  { namedDC := dcs, defaultDC := dd,
    lookupErr := fun _ => none, createErr := fun _ _ => none,
    childrenErr := fun _ => none, destroyErr := fun _ => none }

end VsphereFolder

namespace VsphereFolder

def Event.isChildrenQ : Event → Bool
  | .childrenQ _ => true
  | _ => false

/-- Number of destroy calls recorded in a trace. -/
def countDestroys (tr : List Event) : Nat := (tr.filter Event.isDestroy).length

/-- Concrete datacenter resolution: one datacenter named `dc0` with
inventory path `dc0`. -/
def dcResA : String → Option DC := fun s => if s = "dc0" then some ⟨"dc0", ["dc0"]⟩ else none

/-- Concrete fault-free client over `dcResA`. -/
def clA : Client := quietClient dcResA (some ⟨"dc0", ["dc0"]⟩)

/-- Inventory before Create of `a/b/c`: the VM root `dc0/vm` and the
pre-existing folder `dc0/vm/a`. -/
def invCreateA : Inv := ⟨[["dc0", "vm"], ["dc0", "vm", "a"]]⟩

/-- Resource data for creating path `a/b/c` in datacenter `dc0`. -/
def dCreateA : RData :=
  { datacenter := "dc0", pathField := ["a", "b", "c"], existing_path := [], rid := "" }

/-- Resource data as persisted by that Create (identity set, `existing_path`
still empty — the source never assigns it). -/
def dCreatedA : RData :=
  { datacenter := "dc0", pathField := ["a", "b", "c"], existing_path := [], rid := "dc0/a/b/c" }

/-- Inventory before Delete of `a/b/c` with boundary `a`: the three folders
keyed as the delete path looks them up (`dc0/vm/...`). -/
def invDeleteA : Inv :=
  ⟨[["dc0", "vm", "a"], ["dc0", "vm", "a", "b"], ["dc0", "vm", "a", "b", "c"]]⟩

/-- Resource data for deleting `a/b/c` with recorded boundary `a`. -/
def dDeleteA : RData :=
  { datacenter := "dc0", pathField := ["a", "b", "c"], existing_path := ["a"], rid := "dc0/a/b/c" }

/-- Resource data whose recorded boundary equals the full path. -/
def dNoopA : RData :=
  { datacenter := "dc0", pathField := ["a", "b", "c"], existing_path := ["a", "b", "c"],
    rid := "dc0/a/b/c" }

/-- Inventory in which the leaf `a/b/c` no longer exists. -/
def invLeafGone : Inv := ⟨[["dc0", "vm", "a"]]⟩

/-- An empty inventory (not even the VM root exists). -/
def invEmptyA : Inv := ⟨[]⟩

/-- The working record for the prune of `a/b/c` with boundary `a`. -/
def fRecA : FolderRec := { datacenter := "dc0", existingPath := ["a"], path := ["a", "b", "c"] }

/-- A client that fails the creation of `c` under `dc0/vm/a/b` with the
underlying error `boom`, everything else succeeding. -/
def clFailC : Client :=
  { namedDC := dcResA, defaultDC := some ⟨"dc0", ["dc0"]⟩,
    lookupErr := fun _ => none,
    createErr := fun p n => if p = ["dc0", "vm", "a", "b"] ∧ n = "c" then some "boom" else none,
    childrenErr := fun _ => none, destroyErr := fun _ => none }

theorem countDestroys_append (s t : List Event) :
    countDestroys (s ++ t) = countDestroys s + countDestroys t := by
  simp [countDestroys, List.filter_append]

end VsphereFolder

namespace VsphereFolder

/-- C1: the claim says the persisted `existing_path` after a successful
Create equals the deepest pre-existing ancestor (`a` when creating `a/b/c`
from existing `a`).  The code never assigns `f.existingPath` in
`createFolder`, so Create persists the zero value `""`: at the failing
input (path `a/b/c`, datacenter `dc0`, inventory holding the VM root and
`a`), the Create succeeds but the persisted `existing_path` is empty, not
`a`. -/
theorem C1_create_persists_empty_existing_path :
    (resourceVSphereFolderCreate clA invCreateA dCreateA).2.2 = Outcome.ok dCreatedA ∧
      dCreatedA.existing_path = [] ∧ dCreatedA.existing_path ≠ ["a"] := by decide

/-- C2: creating `a/b/c` where only `a` exists issues exactly two
create-child-folder calls, `b` under `a` and then `c` under the newly
created `b`, in root-to-leaf order — the reverse of the leaf-first
discovery order `[c, b]` produced by the resolution loop — and never in
the reversed order. -/
theorem C2_create_calls_root_to_leaf
    (cl : Client) (inv : Inv) (w dcn a b c : String) (d2 : DC)
    (hdc : getDatacenter cl dcn = Except.ok d2)
    (hip : d2.inventoryPath = [w])
    (hl1 : cl.lookupErr [w, "vm", a, b, c] = none)
    (hl2 : cl.lookupErr [w, "vm", a, b] = none)
    (hl3 : cl.lookupErr [w, "vm", a] = none)
    (hf1 : inv.found [w, "vm", a, b, c] = false)
    (hf2 : inv.found [w, "vm", a, b] = false)
    (hf3 : inv.found [w, "vm", a] = true)
    (hc1 : cl.createErr [w, "vm", a] b = none)
    (hc2 : cl.createErr [w, "vm", a, b] c = none) :
    findLoop cl inv [w] ([w, "vm", a, b, c].length + 1) [w, "vm", a, b, c] [] [] =
      ([Event.lookup [w, "vm", a, b, c], Event.lookup [w, "vm", a, b], Event.lookup [w, "vm", a]],
        Outcome.ok ([w, "vm", a], [c, b])) ∧
    createFolder cl inv { datacenter := dcn, existingPath := [], path := [a, b, c] } =
      ((inv.createNode [w, "vm", a] b).createNode [w, "vm", a, b] c,
        [Event.lookup [w, "vm", a, b, c], Event.lookup [w, "vm", a, b], Event.lookup [w, "vm", a],
         Event.createF [w, "vm", a] b, Event.createF [w, "vm", a, b] c],
        Outcome.ok { datacenter := dcn, existingPath := [], path := [a, b, c] }) ∧
    ([Event.lookup [w, "vm", a, b, c], Event.lookup [w, "vm", a, b], Event.lookup [w, "vm", a],
      Event.createF [w, "vm", a] b, Event.createF [w, "vm", a, b] c].filter Event.isCreate) =
      [Event.createF [w, "vm", a] b, Event.createF [w, "vm", a, b] c] := by
  refine ⟨?_, ?_, rfl⟩
  · simp [findLoop, hl1, hl2, hl3, hf1, hf2, hf3]
  · simp [createFolder, hdc, hip, findLoop, hl1, hl2, hl3, hf1, hf2, hf3, createLoop, hc1, hc2]

theorem C2_create_calls_root_to_leaf_witness :
    (createFolder clA invCreateA
        { datacenter := "dc0", existingPath := [], path := ["a", "b", "c"] }).2.1.filter
        Event.isCreate =
      [Event.createF ["dc0", "vm", "a"] ("b"), Event.createF ["dc0", "vm", "a", "b"] ("c")] := by
  have h := C2_create_calls_root_to_leaf clA invCreateA ("dc0") ("dc0") ("a") ("b") ("c")
    ⟨"dc0", ["dc0"]⟩ rfl rfl rfl rfl rfl rfl rfl rfl rfl rfl
  rw [h.2.1]
  exact h.2.2

/-- C3: pruning `a/b/c` with boundary `a`, all folders below the boundary
empty, destroys `c` first and then `b`, and the trace contains no destroy
call and no children query for the boundary `a` or anything above it (the
only touch of `a` is the final re-lookup). -/
theorem C3_prune_child_before_parent
    (cl : Client) (dcn a b c : String) (d2 : DC)
    (hdc : getDatacenter cl dcn = Except.ok d2)
    (hl1 : cl.lookupErr [dcn, "vm", a, b, c] = none)
    (hl2 : cl.lookupErr [dcn, "vm", a, b] = none)
    (hl3 : cl.lookupErr [dcn, "vm", a] = none)
    (he1 : cl.childrenErr [dcn, "vm", a, b, c] = none)
    (he2 : cl.childrenErr [dcn, "vm", a, b] = none)
    (hd1 : cl.destroyErr [dcn, "vm", a, b, c] = none)
    (hd2 : cl.destroyErr [dcn, "vm", a, b] = none) :
    deleteFolder cl ⟨[[dcn, "vm", a], [dcn, "vm", a, b], [dcn, "vm", a, b, c]]⟩
      { datacenter := dcn, existingPath := [a], path := [a, b, c] } =
      (⟨[[dcn, "vm", a]]⟩,
        [Event.lookup [dcn, "vm", a, b, c], Event.childrenQ [dcn, "vm", a, b, c],
         Event.destroy [dcn, "vm", a, b, c], Event.lookup [dcn, "vm", a, b],
         Event.childrenQ [dcn, "vm", a, b], Event.destroy [dcn, "vm", a, b],
         Event.lookup [dcn, "vm", a]],
        Outcome.ok ()) ∧
    ([Event.lookup [dcn, "vm", a, b, c], Event.childrenQ [dcn, "vm", a, b, c],
      Event.destroy [dcn, "vm", a, b, c], Event.lookup [dcn, "vm", a, b],
      Event.childrenQ [dcn, "vm", a, b], Event.destroy [dcn, "vm", a, b],
      Event.lookup [dcn, "vm", a]].filter Event.isDestroy) =
      [Event.destroy [dcn, "vm", a, b, c], Event.destroy [dcn, "vm", a, b]] ∧
    (∀ p, (Event.destroy p ∈
        [Event.lookup [dcn, "vm", a, b, c], Event.childrenQ [dcn, "vm", a, b, c],
         Event.destroy [dcn, "vm", a, b, c], Event.lookup [dcn, "vm", a, b],
         Event.childrenQ [dcn, "vm", a, b], Event.destroy [dcn, "vm", a, b],
         Event.lookup [dcn, "vm", a]] ∨
        Event.childrenQ p ∈
        [Event.lookup [dcn, "vm", a, b, c], Event.childrenQ [dcn, "vm", a, b, c],
         Event.destroy [dcn, "vm", a, b, c], Event.lookup [dcn, "vm", a, b],
         Event.childrenQ [dcn, "vm", a, b], Event.destroy [dcn, "vm", a, b],
         Event.lookup [dcn, "vm", a]]) →
      p = [dcn, "vm", a, b, c] ∨ p = [dcn, "vm", a, b]) := by
  refine ⟨?_, rfl, ?_⟩
  · simp [deleteFolder, hdc, deleteKey, hl1, hl2, hl3, Inv.found, deleteLoop, he1, he2, hd1, hd2,
      Inv.childrenOf, Inv.destroyNode, List.isPrefixOf, List.filter]
  · intro p hp
    rcases hp with hp | hp <;> simp at hp <;> tauto

theorem C3_prune_child_before_parent_witness :
    deleteFolder clA ⟨[["dc0", "vm", "a"], ["dc0", "vm", "a", "b"], ["dc0", "vm", "a", "b", "c"]]⟩
      { datacenter := "dc0", existingPath := ["a"], path := ["a", "b", "c"] } =
      (⟨[["dc0", "vm", "a"]]⟩,
        [Event.lookup ["dc0", "vm", "a", "b", "c"], Event.childrenQ ["dc0", "vm", "a", "b", "c"],
         Event.destroy ["dc0", "vm", "a", "b", "c"], Event.lookup ["dc0", "vm", "a", "b"],
         Event.childrenQ ["dc0", "vm", "a", "b"], Event.destroy ["dc0", "vm", "a", "b"],
         Event.lookup ["dc0", "vm", "a"]],
        Outcome.ok ()) :=
  (C3_prune_child_before_parent clA ("dc0") ("a") ("b") ("c") ⟨"dc0", ["dc0"]⟩
    rfl rfl rfl rfl rfl rfl rfl rfl).1

end VsphereFolder

namespace VsphereFolder

/-- C4: pruning `a/b/c` with boundary `a` where `b` has an extra child `x`
destroys the empty `c`, then fails with the non-empty error at `b` without
destroying it: `b` and its child `x` remain in inventory, `c` stays
deleted, exactly one destroy call was made, and no retry happens (the
trace ends at the single children query of `b`). -/
theorem C4_nonempty_abort
    (cl : Client) (dcn a b c x : String) (d2 : DC) (hx : x ≠ c)
    (hdc : getDatacenter cl dcn = Except.ok d2)
    (hl1 : cl.lookupErr [dcn, "vm", a, b, c] = none)
    (hl2 : cl.lookupErr [dcn, "vm", a, b] = none)
    (he1 : cl.childrenErr [dcn, "vm", a, b, c] = none)
    (he2 : cl.childrenErr [dcn, "vm", a, b] = none)
    (hd1 : cl.destroyErr [dcn, "vm", a, b, c] = none) :
    deleteFolder cl
      ⟨[[dcn, "vm", a], [dcn, "vm", a, b], [dcn, "vm", a, b, c], [dcn, "vm", a, b, x]]⟩
      { datacenter := dcn, existingPath := [a], path := [a, b, c] } =
      (⟨[[dcn, "vm", a], [dcn, "vm", a, b], [dcn, "vm", a, b, x]]⟩,
        [Event.lookup [dcn, "vm", a, b, c], Event.childrenQ [dcn, "vm", a, b, c],
         Event.destroy [dcn, "vm", a, b, c], Event.lookup [dcn, "vm", a, b],
         Event.childrenQ [dcn, "vm", a, b]],
        Outcome.err ("Folder " ++ joinPath [a, b] ++ " is non-empty and will not be deleted")) ∧
    [dcn, "vm", a, b] ∈ ([[dcn, "vm", a], [dcn, "vm", a, b], [dcn, "vm", a, b, x]] : List Path) ∧
    [dcn, "vm", a, b, x] ∈ ([[dcn, "vm", a], [dcn, "vm", a, b], [dcn, "vm", a, b, x]] : List Path) ∧
    [dcn, "vm", a, b, c] ∉ ([[dcn, "vm", a], [dcn, "vm", a, b], [dcn, "vm", a, b, x]] : List Path) ∧
    ([Event.lookup [dcn, "vm", a, b, c], Event.childrenQ [dcn, "vm", a, b, c],
      Event.destroy [dcn, "vm", a, b, c], Event.lookup [dcn, "vm", a, b],
      Event.childrenQ [dcn, "vm", a, b]].filter Event.isDestroy) =
      [Event.destroy [dcn, "vm", a, b, c]] := by
  have hcx : (c == x) = false := by simp [hx.symm]
  have hxc : (x == c) = false := by simp [hx]
  refine ⟨?_, by simp, by simp, ?_, rfl⟩
  · simp [deleteFolder, hdc, deleteKey, hl1, hl2, Inv.found, deleteLoop, he1, he2, hd1,
      Inv.childrenOf, Inv.destroyNode, List.isPrefixOf, List.filter, hcx, hxc, hx, hx.symm]
  · simp [hx.symm]

theorem C4_nonempty_abort_witness :
    deleteFolder clA
      ⟨[["dc0", "vm", "a"], ["dc0", "vm", "a", "b"], ["dc0", "vm", "a", "b", "c"],
        ["dc0", "vm", "a", "b", "x"]]⟩
      { datacenter := "dc0", existingPath := ["a"], path := ["a", "b", "c"] } =
      (⟨[["dc0", "vm", "a"], ["dc0", "vm", "a", "b"], ["dc0", "vm", "a", "b", "x"]]⟩,
        [Event.lookup ["dc0", "vm", "a", "b", "c"], Event.childrenQ ["dc0", "vm", "a", "b", "c"],
         Event.destroy ["dc0", "vm", "a", "b", "c"], Event.lookup ["dc0", "vm", "a", "b"],
         Event.childrenQ ["dc0", "vm", "a", "b"]],
        Outcome.err ("Folder " ++ joinPath ["a", "b"] ++ " is non-empty and will not be deleted")) :=
  (C4_nonempty_abort clA ("dc0") ("a") ("b") ("c") ("x") ⟨"dc0", ["dc0"]⟩ (by decide)
    rfl rfl rfl rfl rfl rfl).1

/-- C5: when the recorded `existing_path` equals the full path, the prune
loop body never runs: Delete issues exactly the initial leaf lookup, no
destroy and no create (zero inventory mutations), leaves the inventory
unchanged, succeeds, and only clears the resource identity. -/
theorem C5_noop_when_boundary_is_full_path
    (cl : Client) (inv : Inv) (d : RData) (d2 : DC)
    (hb : d.existing_path = d.pathField)
    (hdc : getDatacenter cl d.datacenter = Except.ok d2)
    (hl : cl.lookupErr (deleteKey d.datacenter d.pathField) = none)
    (hf : inv.found (deleteKey d.datacenter d.pathField) = true) :
    resourceVSphereFolderDelete cl inv d =
      (inv, [Event.lookup (deleteKey d.datacenter d.pathField)], Outcome.ok { d with rid := "" }) ∧
    ([Event.lookup (deleteKey d.datacenter d.pathField)].filter Event.isMutation) = [] := by
  refine ⟨?_, rfl⟩
  simp [resourceVSphereFolderDelete, deleteFolder, hdc, hl, hf, hb, deleteLoop]

theorem C5_noop_when_boundary_is_full_path_witness :
    resourceVSphereFolderDelete clA invDeleteA dNoopA =
      (invDeleteA, [Event.lookup (deleteKey dNoopA.datacenter dNoopA.pathField)],
        Outcome.ok { dNoopA with rid := "" }) :=
  (C5_noop_when_boundary_is_full_path clA invDeleteA dNoopA ⟨"dc0", ["dc0"]⟩
    rfl rfl rfl rfl).1

/-- C6: a Create against a datacenter whose VM base path (and everything
under it) cannot be found walks up to the datacenter root and fails with
the `vSphere base path ... not found` lookup error, issuing zero
create-folder calls. -/
theorem C6_missing_vm_root_fails_without_creates
    (cl : Client) (inv : Inv) (w dcn a b : String) (d2 : DC)
    (hdc : getDatacenter cl dcn = Except.ok d2)
    (hip : d2.inventoryPath = [w])
    (hl1 : cl.lookupErr [w, "vm", a, b] = none)
    (hl2 : cl.lookupErr [w, "vm", a] = none)
    (hl3 : cl.lookupErr [w, "vm"] = none)
    (hf1 : inv.found [w, "vm", a, b] = false)
    (hf2 : inv.found [w, "vm", a] = false)
    (hf3 : inv.found [w, "vm"] = false) :
    createFolder cl inv { datacenter := dcn, existingPath := [], path := [a, b] } =
      (inv,
        [Event.lookup [w, "vm", a, b], Event.lookup [w, "vm", a], Event.lookup [w, "vm"]],
        Outcome.err ("vSphere base path " ++ joinPath [w, "vm"] ++ " not found")) ∧
    ([Event.lookup [w, "vm", a, b], Event.lookup [w, "vm", a],
      Event.lookup [w, "vm"]].filter Event.isCreate) = [] := by
  refine ⟨?_, rfl⟩
  simp [createFolder, hdc, hip, findLoop, hl1, hl2, hl3, hf1, hf2, hf3, joinPath]

theorem C6_missing_vm_root_fails_without_creates_witness :
    createFolder clA invEmptyA { datacenter := "dc0", existingPath := [], path := ["a", "b"] } =
      (invEmptyA,
        [Event.lookup ["dc0", "vm", "a", "b"], Event.lookup ["dc0", "vm", "a"],
         Event.lookup ["dc0", "vm"]],
        Outcome.err ("vSphere base path " ++ joinPath ["dc0", "vm"] ++ " not found")) :=
  (C6_missing_vm_root_fails_without_creates clA invEmptyA ("dc0") ("dc0") ("a") ("b")
    ⟨"dc0", ["dc0"]⟩ rfl rfl rfl rfl rfl rfl rfl rfl).1

end VsphereFolder

namespace VsphereFolder

/-- C7: when the recorded boundary is a component-wise prefix of the
current path (the spec's invariant; the path is `existingPath ++ rest`),
the prune loop terminates within any fuel exceeding the number of
segments between the leaf and the boundary — each iteration strictly
shortens the path by one segment — and a successful prune performs
exactly `rest.length` destroy calls, one per created segment.  In
particular the fuel `f.path.length + 1` supplied by `deleteFolder`
suffices. -/
theorem C7_prune_loop_terminates (cl : Client) (f : FolderRec) (rest : List String) :
    ∀ fuel inv fld tr, rest.length < fuel →
      (deleteLoop cl f fuel inv (f.existingPath ++ rest) fld tr).2.2 ≠ Outcome.fuelOut ∧
      (∀ u, (deleteLoop cl f fuel inv (f.existingPath ++ rest) fld tr).2.2 = Outcome.ok u →
        countDestroys (deleteLoop cl f fuel inv (f.existingPath ++ rest) fld tr).2.1 =
          countDestroys tr + rest.length) := by
  induction rest using List.reverseRecOn with
  | nil =>
    intro fuel inv fld tr hfuel
    cases fuel with
    | zero => omega
    | succ k => simp [deleteLoop]
  | append_singleton init lastSeg ih =>
    intro fuel inv fld tr hfuel
    cases fuel with
    | zero => simp at hfuel
    | succ k =>
      have hne : f.existingPath ++ (init ++ [lastSeg]) ≠ f.existingPath := by
        simp
      have hdrop : (f.existingPath ++ (init ++ [lastSeg])).dropLast = f.existingPath ++ init := by
        rw [← List.append_assoc, List.dropLast_concat]
      have hk : init.length < k := by
        simp at hfuel; omega
      cases hce : cl.childrenErr fld with
      | some e => simp [deleteLoop, hne, hce]
      | none =>
        by_cases hch : 0 < (inv.childrenOf fld).length
        · simp [deleteLoop, hne, hce, hch]
        · cases hde : cl.destroyErr fld with
          | some e => simp [deleteLoop, hne, hce, hch, hde]
          | none =>
            cases hle : cl.lookupErr (deleteKey f.datacenter (f.existingPath ++ init)) with
            | some e => simp [deleteLoop, hne, hce, hch, hde, hdrop, hle]
            | none =>
              simp only [deleteLoop, if_neg hne, hce, hch, if_false, hde, hdrop, hle]
              obtain ⟨s1, s2⟩ := ih k (inv.destroyNode fld)
                (if (inv.destroyNode fld).found
                      (deleteKey f.datacenter (f.existingPath ++ init)) = true then
                   deleteKey f.datacenter (f.existingPath ++ init) else fld)
                (tr ++ [Event.childrenQ fld] ++ [Event.destroy fld] ++
                  [Event.lookup (deleteKey f.datacenter (f.existingPath ++ init))]) hk
              refine ⟨s1, ?_⟩
              intro u hu
              have h2 := s2 u hu
              rw [h2, countDestroys_append, countDestroys_append, countDestroys_append]
              have hone : countDestroys [Event.destroy fld] = 1 := rfl
              have hz1 : countDestroys [Event.childrenQ fld] = 0 := rfl
              have hz2 : countDestroys
                  [Event.lookup (deleteKey f.datacenter (f.existingPath ++ init))] = 0 := rfl
              rw [hone, hz1, hz2]
              simp
              omega

theorem C7_prune_loop_terminates_witness :
    (deleteLoop clA fRecA 4 invDeleteA (fRecA.existingPath ++ ["b", "c"])
        (deleteKey ("dc0") ["a", "b", "c"]) []).2.2 ≠ Outcome.fuelOut :=
  (C7_prune_loop_terminates clA fRecA ["b", "c"] 4 invDeleteA
    (deleteKey ("dc0") ["a", "b", "c"]) [] (by decide)).1

/-- C9: the claim says a failed create-child-folder call makes Create
return an error wrapping the underlying cause and naming the parent
folder's inventory path.  The source cannot do that: the multi-assignment
at line 114 replaces `root` with the failed call's nil return before the
error check, so formatting `root.InventoryPath` for that error at line
116 dereferences a nil pointer.  At the failing input (creating `a/b/c`
from existing `a`, where creating `c` under the new `a/b` fails with
underlying cause `boom`), `createFolder` crashes with a runtime panic
instead of returning the claimed error; the folder `a/b` created before
the failure remains in inventory (no rollback) and no destroy call is
ever issued. -/
theorem C9_create_failure_panics_not_error :
    createFolder clFailC invCreateA
      { datacenter := "dc0", existingPath := [], path := ["a", "b", "c"] } =
      (invCreateA.createNode ["dc0", "vm", "a"] ("b"),
        [Event.lookup ["dc0", "vm", "a", "b", "c"], Event.lookup ["dc0", "vm", "a", "b"],
         Event.lookup ["dc0", "vm", "a"], Event.createF ["dc0", "vm", "a"] ("b"),
         Event.createF ["dc0", "vm", "a", "b"] ("c")],
        Outcome.crash) ∧
    ["dc0", "vm", "a", "b"] ∈ (invCreateA.createNode ["dc0", "vm", "a"] ("b")).nodes ∧
    ([Event.lookup ["dc0", "vm", "a", "b", "c"], Event.lookup ["dc0", "vm", "a", "b"],
      Event.lookup ["dc0", "vm", "a"], Event.createF ["dc0", "vm", "a"] ("b"),
      Event.createF ["dc0", "vm", "a", "b"] ("c")].filter Event.isDestroy) = [] := by decide

/-- C10: when the leaf folder no longer exists, the initial inventory-path
lookup returns nil without an error and `deleteFolder` performs the type
assertion `folderRef.(*object.Folder)` on that nil reference: Delete
crashes with a runtime panic after the single lookup, instead of
returning an error, and the identity is not cleared. -/
theorem C10_delete_missing_leaf_crashes
    (cl : Client) (inv : Inv) (d : RData) (d2 : DC)
    (hdc : getDatacenter cl d.datacenter = Except.ok d2)
    (hl : cl.lookupErr (deleteKey d.datacenter d.pathField) = none)
    (hf : inv.found (deleteKey d.datacenter d.pathField) = false) :
    resourceVSphereFolderDelete cl inv d =
      (inv, [Event.lookup (deleteKey d.datacenter d.pathField)], Outcome.crash) := by
  simp [resourceVSphereFolderDelete, deleteFolder, hdc, hl, hf]

theorem C10_delete_missing_leaf_crashes_witness :
    resourceVSphereFolderDelete clA invLeafGone dDeleteA =
      (invLeafGone, [Event.lookup (deleteKey dDeleteA.datacenter dDeleteA.pathField)],
        Outcome.crash) :=
  C10_delete_missing_leaf_crashes clA invLeafGone dDeleteA ⟨"dc0", ["dc0"]⟩ rfl rfl rfl

end VsphereFolder
